import Mathlib

/-!
# Towncryer JS SDK — verification of the `ApiService` session manager

Shallow embedding of `src/services/api.ts` (the session manager with
single-flight token refresh).  The repository also contains two older/newer
variants of the same class (modelled where a claim cites them, in namespace
`Variant2` for the variant with the idempotence guard and conditional
headers).

Modelling conventions:
* `Option String` stands for a JS string field that may be `undefined`;
  JS truthiness of such a field is `jsTruthy`.
* The axios instance is a record of its construction-time configuration,
  plus an identity (`hid`, the factory invocation counter at creation) and
  a flag recording whether `setupAxiosInterceptors` has registered the
  response interceptor on this particular instance.
* The `AxiosInstanceFactory.create` invocation count is `factoryCount`.
-/

namespace Towncryer

/-- JS truthiness of a possibly-undefined string: `undefined` and `""` are
falsy. -/
def jsTruthy : Option String → Bool
  | none => false
  | some s => !s.isEmpty

/-- JS template-literal interpolation of a possibly-undefined string:
`` `Bearer ${this.token}` `` renders `undefined` as the text "undefined". -/
def jsInterp : Option String → String
  | none => "undefined"
  | some s => s

/-- JS `x || d` on a possibly-undefined string: falsy (`undefined` or `""`)
falls through to the default. -/
def jsOr (x : Option String) (d : String) : String :=
  match x with
  | none => d
  | some s => if s.isEmpty then d else s

/-- A JS error value: either a thrown `new Error(msg)` or an opaque
`ApiError` coming back from the transport, identified by a tag. -/
inductive JsError where
  | errorMsg (msg : String)
  | apiErr (tag : Nat)
deriving Repr, DecidableEq

/-- The message of the error thrown by `refreshShortLivedToken` when no
refresh token is held. -/
def refreshTokenRequiredMsg : String :=
  "Refresh token is required to refresh short-lived token"

/-- An axios instance as observed by this SDK: the configuration it was
created with, its identity, and whether the SDK's response interceptor has
been registered on it. -/
structure AxiosHandle where
  hid : Nat
  baseURL : Option String
  headers : List (String × String)
  responseInterceptorInstalled : Bool
deriving Repr, DecidableEq

/-- The four sub-client names of `ApiTypes`. -/
inductive ApiName where
  | auth | event | customer | message
deriving Repr, DecidableEq

/-- A generated sub-client, as constructed by `createApi`: it captures the
configuration's base path and the axios instance passed at construction. -/
structure SubClient where
  basePath : Option String
  axios : AxiosHandle
deriving Repr, DecidableEq

/-- The mutable state of the `ApiService` singleton. -/
structure ApiState where
  factoryCount : Nat
  basePath : Option String
  token : Option String
  refreshToken : Option String
  tenantId : String
  isRefreshing : Bool
  axiosInstance : AxiosHandle
  apiInstances : List (ApiName × SubClient)
deriving Repr, DecidableEq

/-- Source `createAxiosInstance` of `src/services/api.ts`: builds the instance via
the factory with the three headers set unconditionally (the tenant header
with whatever `tenantId` holds, the authorization header interpolating the
possibly-undefined token).  A freshly created instance has no interceptor
registered. -/
def createAxiosInstance (s : ApiState) : AxiosHandle :=
  { hid := s.factoryCount
    baseURL := s.basePath
    headers := [("X-Tenant-ID", s.tenantId),
                ("Client", "TowncryerCoreSDK"),
                ("Authorization", "Bearer " ++ jsInterp s.token)]
    responseInterceptorInstalled := false }

/-- The assignment `this.axiosInstance = this.createAxiosInstance()` together with the
factory invocation it implies. -/
def rebuildInstance (s : ApiState) : ApiState :=
  { s with axiosInstance := createAxiosInstance s
           factoryCount := s.factoryCount + 1 }

/-- Source `setupAxiosInterceptors`: registers the response interceptor on the
current instance. -/
def setupAxiosInterceptors (s : ApiState) : ApiState :=
  { s with axiosInstance := { s.axiosInstance with responseInterceptorInstalled := true } }

/-- Source `setBaseUrl`: updates the configuration's base path and rebuilds the
instance — without re-registering the interceptor. -/
def setBaseUrl (url : String) (s : ApiState) : ApiState :=
  rebuildInstance { s with basePath := some url }

/-- Source `setToken`: stores the token, rebuilds the instance, re-registers the
interceptor (no change guard in this file). -/
def setToken (t : Option String) (s : ApiState) : ApiState :=
  setupAxiosInterceptors (rebuildInstance { s with token := t })

/-- Source `setOrganisationId`. -/
def setOrganisationId (o : String) (s : ApiState) : ApiState :=
  setupAxiosInterceptors (rebuildInstance { s with tenantId := o })

/-- Source `setTokenAndOrganisationId`. -/
def setTokenAndOrganisationId (t : String) (o : String) (s : ApiState) : ApiState :=
  setupAxiosInterceptors (rebuildInstance { s with token := some t, tenantId := o })

/-- Source `setRefreshToken`: a bare field assignment. -/
def setRefreshToken (r : Option String) (s : ApiState) : ApiState :=
  { s with refreshToken := r }

/-- Lookup in the `apiInstances` cache. -/
def lookupApi (l : List (ApiName × SubClient)) (n : ApiName) : Option SubClient :=
  match l with
  | [] => none
  | (m, c) :: rest => if m = n then some c else lookupApi rest n

/-- Source `createApi`: constructs a sub-client passing the configuration, its
base path and the *current* axios instance. -/
def createApi (s : ApiState) (_n : ApiName) : SubClient :=
  { basePath := s.basePath, axios := s.axiosInstance }

/-- Source `getApi`: returns the cached sub-client if present, otherwise creates
one bound to the current instance and caches it. -/
def getApi (s : ApiState) (n : ApiName) : SubClient × ApiState :=
  match lookupApi s.apiInstances n with
  | some c => (c, s)
  | none =>
      let c := createApi s n
      (c, { s with apiInstances := (n, c) :: s.apiInstances })

/-- The token pair returned by the refresh endpoint
(`response.data.accessToken` / `response.data.refreshToken`, either of
which may be absent). -/
structure TokenPair where
  accessToken : Option String
  refreshToken : Option String
deriving Repr, DecidableEq

/-- Adoption of the freshly issued tokens inside `refreshShortLivedToken`:
`this.setToken(response.data.accessToken)` then
`this.setRefreshToken(response.data.refreshToken)`. -/
def adoptTokens (resp : TokenPair) (s : ApiState) : ApiState :=
  setRefreshToken resp.refreshToken (setToken resp.accessToken s)

/-- Outcome of one run of `refreshShortLivedToken`, with the state after
the run and whether the refresh endpoint was actually called. -/
structure RefreshRun where
  result : Except JsError String
  state : ApiState
  endpointCalled : Bool
deriving Repr

/-- Source `refreshShortLivedToken`, with the endpoint's behaviour supplied as
`env`.  A falsy (`undefined` or empty) refresh token throws before any
endpoint call; otherwise `getApi('auth')` runs (possibly caching the auth
sub-client) and the endpoint is called; on success the new tokens are
adopted and `response.data.accessToken || ''` is returned. -/
def refreshShortLivedToken (env : Except JsError TokenPair) (s : ApiState) : RefreshRun :=
  if !(jsTruthy s.refreshToken) then
    { result := .error (.errorMsg refreshTokenRequiredMsg), state := s, endpointCalled := false }
  else
    let s1 := (getApi s .auth).2
    match env with
    | .error e => { result := .error e, state := s1, endpointCalled := true }
    | .ok resp =>
        { result := .ok (jsOr resp.accessToken "")
          state := adoptTokens resp s1
          endpointCalled := true }

/-- The `ApiService` constructor: all fields at their declared defaults,
then `createAxiosInstance` and `setupAxiosInterceptors`. -/
def init : ApiState :=
  setupAxiosInterceptors (rebuildInstance
    { factoryCount := 0
      basePath := none
      token := none
      refreshToken := none
      tenantId := ""
      isRefreshing := false
      axiosInstance :=
        { hid := 0, baseURL := none, headers := [], responseInterceptorInstalled := false }
      apiInstances := [] })

/-!
## The refresh-on-401 response interceptor, as a protocol over interleavings

`setupAxiosInterceptors` installs an async error handler.  Under JS's
single-threaded event loop each handler invocation runs atomically up to
its first suspension point, so an interleaving of concurrent requests is a
sequence of atomic events: a request's 401 arriving at the handler
(`arrive`), the in-flight refresh endpoint call settling
(`refreshResolve`), and the first-eligible request's replay settling
(`starterReplaySettle`).  The per-request mutable data (`error.config`
aliases the original request object) is held in `reqs`; what the caller of
request `i` eventually observes is `outcomes[i]`.
-/

/-- The per-request data the interceptor reads and writes: whether
`error.config` is present, the request's `Client` header, the failing
response's status (`error.response?.status`), the `_retry` marker and the
`Authorization` header. -/
structure PReq where
  hasConfig : Bool
  clientHeader : Option String
  status : Option Nat
  retryFlag : Bool
  authHeader : Option String
deriving Repr, DecidableEq

/-- What the caller of one request has observed so far. -/
inductive ReqOutcome where
  /-- still suspended (e.g. waiting in the failed queue) -/
  | pending
  /-- rejected with the original, unmodified error -/
  | passedThrough
  /-- replayed through the transport carrying `Authorization: Bearer token` -/
  | replayed (token : String)
  /-- rejected with the given (refresh or replay) error -/
  | rejectedWith (e : JsError)
deriving Repr, DecidableEq

/-- The eligibility predicates of the error handler, in source order:
`error.config` present, truthy `Client` header equal to
`'TowncryerCoreSDK'`, status exactly 401, not already retried. -/
def eligibleError (r : PReq) : Bool :=
  if !r.hasConfig || !(jsTruthy r.clientHeader)
      || !(r.clientHeader == some "TowncryerCoreSDK") then false
  else if !(r.status == some 401) || r.retryFlag then false
  else true

/-- Global state of a protocol run: the service state, the request pool,
the observed outcomes (same length as `reqs`), the failed queue (indices,
FIFO), the first-eligible request that started the in-flight refresh, the
two pending-continuation flags, and the number of calls that reached the
refresh endpoint. -/
structure ProtoState where
  svc : ApiState
  reqs : List PReq
  outcomes : List ReqOutcome
  queue : List Nat
  starter : Option Nat
  refreshPending : Bool
  replayPending : Bool
  endpointCalls : Nat
deriving Repr, DecidableEq

/-- The events a run interleaves. -/
inductive PEvent where
  /-- request `i`'s response failure reaches the error handler -/
  | arrive (i : Nat)
  /-- the in-flight refresh endpoint call settles -/
  | refreshResolve (r : Except JsError TokenPair)
  /-- the starter's replayed request settles -/
  | starterReplaySettle (r : Except JsError Unit)

/-- The drain `processQueue(null, token)`: each waiter's resolve continuation fires,
overwriting that request's `Authorization` header and replaying it through
the transport. -/
def processQueueOk (tok : String) :
    List Nat → List PReq × List ReqOutcome → List PReq × List ReqOutcome
  | [], st => st
  | q :: rest, (reqs, outcomes) =>
      let reqs' :=
        match reqs[q]? with
        | some rq => reqs.set q { rq with authHeader := some ("Bearer " ++ tok) }
        | none => reqs
      processQueueOk tok rest (reqs', outcomes.set q (.replayed tok))

/-- The drain `processQueue(error)`: each waiter's reject continuation fires with the
error. -/
def processQueueErr (e : JsError) :
    List Nat → List ReqOutcome → List ReqOutcome
  | [], outcomes => outcomes
  | q :: rest, outcomes => processQueueErr e rest (outcomes.set q (.rejectedWith e))

/-- One atomic invocation of the error handler for request `i` (the
synchronous prefix of the async handler).  Ineligible failures are
rejected with the original error, untouched.  An eligible failure is
marked retried; if a refresh is in flight it enqueues a waiter; otherwise
it sets `isRefreshing` and invokes `refreshShortLivedToken`, whose
missing-refresh-token throw happens before any suspension — and, this file
having no `try`/`finally` around the `await`, without clearing
`isRefreshing`.  With a refresh token held, `getApi('auth')` runs and the
endpoint call is issued (it settles later, via `refreshResolve`). -/
def arriveStep (s : ProtoState) (i : Nat) : ProtoState :=
  match s.reqs[i]? with
  | none => s
  | some r =>
    if !(eligibleError r) then
      { s with outcomes := s.outcomes.set i .passedThrough }
    else
      let reqs := s.reqs.set i { r with retryFlag := true }
      if s.svc.isRefreshing then
        { s with reqs := reqs, queue := s.queue ++ [i] }
      else
        let svc1 := { s.svc with isRefreshing := true }
        if !(jsTruthy svc1.refreshToken) then
          { s with reqs := reqs, svc := svc1
                   outcomes := s.outcomes.set i
                     (.rejectedWith (.errorMsg refreshTokenRequiredMsg)) }
        else
          { s with reqs := reqs
                   svc := (getApi svc1 .auth).2
                   starter := some i
                   refreshPending := true
                   endpointCalls := s.endpointCalls + 1 }

/-- The continuation of the handler after `await this.refreshShortLivedToken()`
settles.  On success: the new tokens are adopted, the starter's
authorization header is rewritten, `processQueue(null, newToken)` drains
the queue, and the starter's replay is issued.  On failure — there being
no `try`/`catch` in this file — the error propagates to the starter's
caller with the queue left untouched and `isRefreshing` left `true`. -/
def refreshResolveStep (s : ProtoState) (r : Except JsError TokenPair) : ProtoState :=
  if !s.refreshPending then s
  else
    match s.starter with
    | none => s
    | some st =>
      match r with
      | .error e =>
          { s with refreshPending := false
                   outcomes := s.outcomes.set st (.rejectedWith e) }
      | .ok resp =>
          let newToken := jsOr resp.accessToken ""
          let svc1 := adoptTokens resp s.svc
          let reqs1 :=
            match s.reqs[st]? with
            | some rq => s.reqs.set st { rq with authHeader := some ("Bearer " ++ newToken) }
            | none => s.reqs
          let drained := processQueueOk newToken s.queue (reqs1, s.outcomes)
          { s with svc := svc1
                   reqs := drained.1
                   outcomes := drained.2.set st (.replayed newToken)
                   queue := []
                   refreshPending := false
                   replayPending := true }

/-- Settlement of the starter's replayed request.  On success the attached
`.finally` clears `isRefreshing`.  On failure the `.catch` runs
`processQueue(error)` (rejecting any waiters queued meanwhile), rejects
the starter with the replay error, and the `.finally` still clears the
flag. -/
def starterReplayStep (s : ProtoState) (r : Except JsError Unit) : ProtoState :=
  if !s.replayPending then s
  else
    match s.starter with
    | none => s
    | some st =>
      match r with
      | .ok _ =>
          { s with replayPending := false
                   svc := { s.svc with isRefreshing := false } }
      | .error e =>
          { s with replayPending := false
                   outcomes := (processQueueErr e s.queue s.outcomes).set st (.rejectedWith e)
                   queue := []
                   svc := { s.svc with isRefreshing := false } }

/-- One protocol event. -/
def protoStep (s : ProtoState) : PEvent → ProtoState
  | .arrive i => arriveStep s i
  | .refreshResolve r => refreshResolveStep s r
  | .starterReplaySettle r => starterReplayStep s r

/-- A protocol run over an interleaving of events. -/
def protoRun (s : ProtoState) (evs : List PEvent) : ProtoState :=
  evs.foldl protoStep s

/-- Protocol state for a fresh pool of requests against a service state:
every caller still pending, empty queue, no refresh in flight at the
transport level. -/
def initProto (svc : ApiState) (reqs : List PReq) : ProtoState :=
  { svc := svc
    reqs := reqs
    outcomes := reqs.map fun _ => .pending
    queue := []
    starter := none
    refreshPending := false
    replayPending := false
    endpointCalls := 0 }

/-- A request-pool entry whose failure is an eligible 401: issued by this
SDK (the `Client` header carries the expected value), status 401, not yet
retried. -/
def eligible401 : PReq :=
  { hasConfig := true
    clientHeader := some "TowncryerCoreSDK"
    status := some 401
    retryFlag := false
    authHeader := some "Bearer A1" }

/-- Dispatch of a response failure for request `i` through the *current*
service transport handle: the interceptor's error handler only runs if it
was registered on that handle; otherwise the failure propagates to the
caller unchanged. -/
def handleResponseFailure (s : ProtoState) (i : Nat) : ProtoState :=
  if s.svc.axiosInstance.responseInterceptorInstalled then
    arriveStep s i
  else
    { s with outcomes := s.outcomes.set i .passedThrough }

/-!
## The variant session manager with change guards and conditional headers

The repository also carries a variant of the same class (the file with the
`AuthMethod` enum) whose `createAxiosInstance` adds the tenant and
authorization headers only when truthy, and whose `setToken` /
`setOrganisationId` return early when the value is unchanged.  Only the
parts a claim compares against are modelled.  (That variant additionally
registers a request interceptor stamping the current token at request
time; no claim below depends on it.)
-/
namespace Variant2

/-- Variant `createAxiosInstance`: the fixed `Client` header always;
`X-Tenant-ID` only if `tenantId` is truthy; `Authorization` only if the
token is truthy. -/
def createAxiosInstance (s : ApiState) : AxiosHandle :=
  { hid := s.factoryCount
    baseURL := s.basePath
    headers :=
      [("Client", "TowncryerCoreSDK")]
        ++ (if s.tenantId.isEmpty then [] else [("X-Tenant-ID", s.tenantId)])
        ++ (if jsTruthy s.token then [("Authorization", "Bearer " ++ jsInterp s.token)] else [])
    responseInterceptorInstalled := false }

/-- Variant `updateAxiosInstance`: rebuild, then re-register the
interceptors. -/
def updateAxiosInstance (s : ApiState) : ApiState :=
  Towncryer.setupAxiosInterceptors
    { s with axiosInstance := createAxiosInstance s
             factoryCount := s.factoryCount + 1 }

/-- Variant `setToken`: the guard `if (this.token === token) return;` before
storing and rebuilding. -/
def setToken (t : Option String) (s : ApiState) : ApiState :=
  if s.token = t then s
  else updateAxiosInstance { s with token := t }

end Variant2

/-!
## Auxiliary definitions used by the statements
-/

/-- Whether an axios instance carries a header with the given name. -/
def hasHeader (h : AxiosHandle) (nm : String) : Bool :=
  h.headers.any fun p => p.1 == nm

/-- Decidable form of "request `i` exists in the pool and its failure is
eligible". -/
def eligibleAt (reqs : List PReq) (i : Nat) : Bool :=
  match reqs[i]? with
  | some r => eligibleError r
  | none => false

/-- The accumulated effect on the request pool of a sequence of eligible
arrivals: each one sets its request's `_retry` marker. -/
def markRetried (reqs : List PReq) : List Nat → List PReq
  | [] => reqs
  | i :: rest =>
      match reqs[i]? with
      | some r => markRetried (reqs.set i { r with retryFlag := true }) rest
      | none => markRetried reqs rest

/-- A session state holding bearer token `A1` and refresh token `R1`
(reached from the constructor by `setToken` then `setRefreshToken`). -/
def svcA1 : ApiState :=
  setRefreshToken (some "R1") (setToken (some "A1") init)

/-- A refresh-endpoint success payload `{accessToken: "A2", refreshToken: "R2"}`. -/
def respA2 : TokenPair :=
  { accessToken := some "A2", refreshToken := some "R2" }

/-- A request pool of two concurrent SDK requests that both received an
eligible 401. -/
def reqsPair : List PReq :=
  [eligible401, eligible401]

/-- A request pool of three concurrent SDK requests that all received an
eligible 401. -/
def reqsTriple : List PReq :=
  [eligible401, eligible401, eligible401]

/-- A response failure that is not eligible: right client header but a 500
status. -/
def req500 : PReq :=
  { hasConfig := true
    clientHeader := some "TowncryerCoreSDK"
    status := some 500
    retryFlag := false
    authHeader := some "Bearer A1" }

/-!
## Theorems
-/

/-- C10: `setRefreshToken(r)` mutates only the stored refresh token — the
transport handle identity, bearer token, tenant id, base URL
configuration and sub-client cache are unchanged, and the factory is not
invoked (no new handle constructed). -/
theorem c10_setRefreshToken_frame (s : ApiState) (r : Option String) :
    (setRefreshToken r s).refreshToken = r ∧
    (setRefreshToken r s).token = s.token ∧
    (setRefreshToken r s).tenantId = s.tenantId ∧
    (setRefreshToken r s).basePath = s.basePath ∧
    (setRefreshToken r s).axiosInstance = s.axiosInstance ∧
    (setRefreshToken r s).apiInstances = s.apiInstances ∧
    (setRefreshToken r s).isRefreshing = s.isRefreshing ∧
    (setRefreshToken r s).factoryCount = s.factoryCount :=
  ⟨rfl, rfl, rfl, rfl, rfl, rfl, rfl, rfl⟩

/-- C9: `setBaseUrl` rebuilds the transport handle without reinstalling the
response interceptor, so a response failure dispatched through the new
handle is passed through to the caller unmodified — no refresh, no retry,
no service-state change — even if it is an eligible 401; whereas the
handles produced by `setToken`, `setOrganisationId` and
`setTokenAndOrganisationId` do have the interceptor reinstalled. -/
theorem c9_setBaseUrl_skips_interceptor (s : ProtoState) (u : String) (i : Nat)
    (s2 : ApiState) (t o : String) :
    ((setBaseUrl u s.svc).axiosInstance.responseInterceptorInstalled = false ∧
     (handleResponseFailure { s with svc := setBaseUrl u s.svc } i).svc = setBaseUrl u s.svc ∧
     (handleResponseFailure { s with svc := setBaseUrl u s.svc } i).reqs = s.reqs ∧
     (handleResponseFailure { s with svc := setBaseUrl u s.svc } i).queue = s.queue ∧
     (handleResponseFailure { s with svc := setBaseUrl u s.svc } i).endpointCalls = s.endpointCalls ∧
     (handleResponseFailure { s with svc := setBaseUrl u s.svc } i).outcomes
        = s.outcomes.set i .passedThrough) ∧
    (setToken (some t) s2).axiosInstance.responseInterceptorInstalled = true ∧
    (setOrganisationId o s2).axiosInstance.responseInterceptorInstalled = true ∧
    (setTokenAndOrganisationId t o s2).axiosInstance.responseInterceptorInstalled = true := by
  refine ⟨⟨rfl, ?_, ?_, ?_, ?_, ?_⟩, rfl, rfl, rfl⟩ <;>
    simp [handleResponseFailure, setBaseUrl, rebuildInstance, createAxiosInstance]

/-- C8, counterexample: the claim asserts the tenant header is carried iff
the tenant id is non-empty, and an authorization header iff a bearer token
is set.  In the freshly constructed state the tenant id is empty and no
token is set, yet the handle carries both headers (the authorization one
reading `Bearer undefined`). -/
theorem c8_counterexample :
    init.tenantId = "" ∧ init.token = none ∧
    hasHeader init.axiosInstance "X-Tenant-ID" = true ∧
    hasHeader init.axiosInstance "Authorization" = true ∧
    ("Authorization", "Bearer undefined") ∈ init.axiosInstance.headers := by
  refine ⟨rfl, rfl, rfl, rfl, ?_⟩
  simp [init, setupAxiosInterceptors, rebuildInstance, createAxiosInstance, jsInterp]

/-- C8, amended: every handle carries the fixed `Client: TowncryerCoreSDK`
header.  In `src/services/api.ts` the tenant and authorization headers are
carried unconditionally (the tenant header with the — possibly empty —
tenant id, the authorization header interpolating the possibly-undefined
token); the conditional rule the claim states holds in the variant file:
there the tenant header is carried iff the tenant id is non-empty and the
authorization header iff a non-empty bearer token is set. -/
theorem c8_amended (s : ApiState) :
    (("Client", "TowncryerCoreSDK") ∈ (createAxiosInstance s).headers ∧
     ("X-Tenant-ID", s.tenantId) ∈ (createAxiosInstance s).headers ∧
     ("Authorization", "Bearer " ++ jsInterp s.token) ∈ (createAxiosInstance s).headers) ∧
    (("Client", "TowncryerCoreSDK") ∈ (Variant2.createAxiosInstance s).headers ∧
     hasHeader (Variant2.createAxiosInstance s) "X-Tenant-ID" = !s.tenantId.isEmpty ∧
     hasHeader (Variant2.createAxiosInstance s) "Authorization" = jsTruthy s.token) := by
  refine ⟨⟨?_, ?_, ?_⟩, ?_, ?_, ?_⟩
  · simp [createAxiosInstance]
  · simp [createAxiosInstance]
  · simp [createAxiosInstance]
  · simp [Variant2.createAxiosInstance]
  · cases h : s.tenantId.isEmpty <;>
      cases h2 : jsTruthy s.token <;>
        simp [Variant2.createAxiosInstance, hasHeader, h, h2]
  · cases h : s.tenantId.isEmpty <;>
      cases h2 : jsTruthy s.token <;>
        simp [Variant2.createAxiosInstance, hasHeader, h, h2]

/-- C6, counterexample: the claim asserts `setToken(t)` with an unchanged
value does not reconstruct the transport handle.  In `src/services/api.ts`
a second `setToken` with the same value invokes the factory again and
installs a distinct handle. -/
theorem c6_counterexample :
    (setToken (some "T") (setToken (some "T") init)).factoryCount
      = (setToken (some "T") init).factoryCount + 1 ∧
    (setToken (some "T") (setToken (some "T") init)).axiosInstance
      ≠ (setToken (some "T") init).axiosInstance := by
  refine ⟨rfl, ?_⟩
  decide

/-- C6, amended: in `src/services/api.ts`, `setToken` reconstructs the
transport handle unconditionally — every call invokes the factory once,
also when the stored token already equals the argument.  The
idempotence-guarded behaviour the claim describes holds in the variant
file: there `setToken` with an unchanged value returns without touching
the state at all, and with a changed value invokes the factory once. -/
theorem c6_amended :
    (∀ (s : ApiState) (t : Option String),
        (setToken t s).factoryCount = s.factoryCount + 1) ∧
    (∀ (s : ApiState) (t : Option String),
        s.token = t → Variant2.setToken t s = s) ∧
    (∀ (s : ApiState) (t : Option String),
        s.token ≠ t → (Variant2.setToken t s).factoryCount = s.factoryCount + 1) := by
  refine ⟨fun s t => rfl, fun s t h => ?_, fun s t h => ?_⟩
  · simp [Variant2.setToken, h]
  · simp [Variant2.setToken, h, Variant2.updateAxiosInstance, setupAxiosInterceptors]

/-- C6, witness for the amended theorem at concrete states. -/
theorem c6_amended_witness :
    (setToken (some "T") init).factoryCount = init.factoryCount + 1 ∧
    Variant2.setToken (some "T") { init with token := some "T" }
      = { init with token := some "T" } ∧
    (Variant2.setToken (some "U") { init with token := some "T" }).factoryCount
      = { init with token := some "T" }.factoryCount + 1 :=
  ⟨c6_amended.1 init (some "T"),
   c6_amended.2.1 { init with token := some "T" } (some "T") rfl,
   c6_amended.2.2 { init with token := some "T" } (some "U") (by decide)⟩

/-- C4: a response failure failing any of the three eligibility predicates
(client header present and equal to `TowncryerCoreSDK`, status exactly
401, not already retried) is rejected with the original error unchanged:
the request pool (and so the error and its request, retry marker
included) is untouched, the service state is untouched, no refresh is
triggered and nothing is queued; the caller observes the pass-through. -/
theorem c4_ineligible_passthrough (s : ProtoState) (i : Nat) (r : PReq)
    (hget : s.reqs[i]? = some r) (hinel : eligibleError r = false) :
    (arriveStep s i).reqs = s.reqs ∧
    (arriveStep s i).svc = s.svc ∧
    (arriveStep s i).queue = s.queue ∧
    (arriveStep s i).starter = s.starter ∧
    (arriveStep s i).endpointCalls = s.endpointCalls ∧
    (arriveStep s i).outcomes = s.outcomes.set i .passedThrough := by
  refine ⟨?_, ?_, ?_, ?_, ?_, ?_⟩ <;> simp [arriveStep, hget, hinel]

/-- C4, witness: a 500-status failure at a concrete state. -/
theorem c4_witness :
    (arriveStep (initProto svcA1 [req500]) 0).reqs = (initProto svcA1 [req500]).reqs ∧
    (arriveStep (initProto svcA1 [req500]) 0).svc = (initProto svcA1 [req500]).svc ∧
    (arriveStep (initProto svcA1 [req500]) 0).queue = (initProto svcA1 [req500]).queue ∧
    (arriveStep (initProto svcA1 [req500]) 0).starter = (initProto svcA1 [req500]).starter ∧
    (arriveStep (initProto svcA1 [req500]) 0).endpointCalls
      = (initProto svcA1 [req500]).endpointCalls ∧
    (arriveStep (initProto svcA1 [req500]) 0).outcomes
      = (initProto svcA1 [req500]).outcomes.set 0 .passedThrough :=
  c4_ineligible_passthrough (initProto svcA1 [req500]) 0 req500 rfl (by decide)

/-- C5: an eligible 401 handled while no refresh is in flight and no
refresh token is held (JS-falsy: absent or empty) fails immediately with
the error whose message says a refresh token is required; the refresh
endpoint is not called, nothing is queued, and no replay of the original
request is issued. -/
theorem c5_no_refresh_token (s : ProtoState) (i : Nat) (r : PReq)
    (hget : s.reqs[i]? = some r) (hel : eligibleError r = true)
    (hidle : s.svc.isRefreshing = false)
    (hrt : jsTruthy s.svc.refreshToken = false)
    (hlen : i < s.outcomes.length) :
    (arriveStep s i).outcomes[i]?
      = some (.rejectedWith (.errorMsg refreshTokenRequiredMsg)) ∧
    (arriveStep s i).outcomes
      = s.outcomes.set i (.rejectedWith (.errorMsg refreshTokenRequiredMsg)) ∧
    (arriveStep s i).endpointCalls = s.endpointCalls ∧
    (arriveStep s i).refreshPending = s.refreshPending ∧
    (arriveStep s i).queue = s.queue := by
  have harr : arriveStep s i =
      { s with reqs := s.reqs.set i { r with retryFlag := true }
               svc := { s.svc with isRefreshing := true }
               outcomes := s.outcomes.set i
                 (.rejectedWith (.errorMsg refreshTokenRequiredMsg)) } := by
    simp [arriveStep, hget, hel, hidle, hrt]
  refine ⟨?_, ?_, ?_, ?_, ?_⟩ <;> rw [harr]
  exact List.getElem?_set_eq_of_lt _ hlen

/-- C5, witness: a single eligible 401 at a concrete state holding a bearer
token but no refresh token. -/
theorem c5_witness :
    (arriveStep (initProto (setToken (some "A1") init) [eligible401]) 0).outcomes[0]?
      = some (.rejectedWith (.errorMsg refreshTokenRequiredMsg)) ∧
    (arriveStep (initProto (setToken (some "A1") init) [eligible401]) 0).outcomes
      = (initProto (setToken (some "A1") init) [eligible401]).outcomes.set 0
          (.rejectedWith (.errorMsg refreshTokenRequiredMsg)) ∧
    (arriveStep (initProto (setToken (some "A1") init) [eligible401]) 0).endpointCalls
      = (initProto (setToken (some "A1") init) [eligible401]).endpointCalls ∧
    (arriveStep (initProto (setToken (some "A1") init) [eligible401]) 0).refreshPending
      = (initProto (setToken (some "A1") init) [eligible401]).refreshPending ∧
    (arriveStep (initProto (setToken (some "A1") init) [eligible401]) 0).queue
      = (initProto (setToken (some "A1") init) [eligible401]).queue :=
  c5_no_refresh_token (initProto (setToken (some "A1") init) [eligible401]) 0
    eligible401 rfl (by decide) rfl rfl (by decide)

/-- C2 (claim: the refreshing flag is cleared on every settled path): run
the protocol where the single in-flight refresh call itself fails.  The
handler of `src/services/api.ts` has no `try`/`catch`/`finally` around the
`await`, so after the refresh error settles the flag is still `true`, and
a further eligible 401 arriving afterwards is enqueued forever instead of
triggering a fresh refresh — contradicting the claim. -/
theorem c2_refresh_failure_leaves_flag_set :
    (protoRun (initProto svcA1 reqsPair)
        [.arrive 0, .refreshResolve (.error (.apiErr 7)), .arrive 1]).svc.isRefreshing
      = true ∧
    (protoRun (initProto svcA1 reqsPair)
        [.arrive 0, .refreshResolve (.error (.apiErr 7)), .arrive 1]).refreshPending
      = false ∧
    (protoRun (initProto svcA1 reqsPair)
        [.arrive 0, .refreshResolve (.error (.apiErr 7)), .arrive 1]).endpointCalls
      = 1 ∧
    (protoRun (initProto svcA1 reqsPair)
        [.arrive 0, .refreshResolve (.error (.apiErr 7)), .arrive 1]).queue
      = [1] ∧
    (protoRun (initProto svcA1 reqsPair)
        [.arrive 0, .refreshResolve (.error (.apiErr 7)), .arrive 1]).outcomes[1]?
      = some .pending :=
  ⟨rfl, rfl, rfl, rfl, rfl⟩

/-- C3 (claim: on refresh-call failure every queued waiter is rejected with
the refresh error and the queue is cleared): run the protocol with one
waiter queued behind the in-flight refresh when the refresh call fails.
The original caller does receive the refresh error, but — there being no
`catch` invoking `processQueue` in `src/services/api.ts` — the waiter is
never rejected (it stays pending) and the queue is not cleared,
contradicting the claim. -/
theorem c3_refresh_failure_strands_waiters :
    (protoRun (initProto svcA1 reqsPair)
        [.arrive 0, .arrive 1, .refreshResolve (.error (.apiErr 7))]).outcomes[0]?
      = some (.rejectedWith (.apiErr 7)) ∧
    (protoRun (initProto svcA1 reqsPair)
        [.arrive 0, .arrive 1, .refreshResolve (.error (.apiErr 7))]).outcomes[1]?
      = some .pending ∧
    (protoRun (initProto svcA1 reqsPair)
        [.arrive 0, .arrive 1, .refreshResolve (.error (.apiErr 7))]).queue
      = [1] ∧
    (protoRun (initProto svcA1 reqsPair)
        [.arrive 0, .arrive 1, .refreshResolve (.error (.apiErr 7))]).svc.isRefreshing
      = true :=
  ⟨rfl, rfl, rfl, rfl⟩

/-- C7, counterexample: the claim's scenario asserts that after a refresh
adopts new token `A2`, `getApi` reuses the cached sub-client *and* that
sub-client's handle carries `A2`.  Running the refresh (which itself
caches the auth sub-client bound to the pre-refresh handle) from a state
holding token `A1`: the service's current handle does carry `Bearer A2`,
but the cached sub-client returned by `getApi` is still bound to the old
handle carrying `Bearer A1` — the cache is never invalidated. -/
theorem c7_counterexample :
    (refreshShortLivedToken (.ok respA2) svcA1).state.token = some "A2" ∧
    ("Authorization", "Bearer A2")
      ∈ (refreshShortLivedToken (.ok respA2) svcA1).state.axiosInstance.headers ∧
    (getApi (refreshShortLivedToken (.ok respA2) svcA1).state .auth).1.axios.headers
      = [("X-Tenant-ID", ""), ("Client", "TowncryerCoreSDK"), ("Authorization", "Bearer A1")] ∧
    ("Authorization", "Bearer A2")
      ∉ (getApi (refreshShortLivedToken (.ok respA2) svcA1).state .auth).1.axios.headers := by
  refine ⟨rfl, ?_, rfl, ?_⟩ <;> decide

/-- C7, amended: `getApi(name)` returns the cached sub-client when one
exists and otherwise constructs one bound to the transport handle that is
current at call time and caches it; but after a refresh adopts new
tokens, subsequent `getApi` calls return the *same* cached sub-client,
still bound to the handle it was constructed with — the adopted token does
not reach a previously cached sub-client's handle. -/
theorem c7_amended :
    (∀ (s : ApiState) (n : ApiName) (c : SubClient),
        lookupApi s.apiInstances n = some c → getApi s n = (c, s)) ∧
    (∀ (s : ApiState) (n : ApiName),
        lookupApi s.apiInstances n = none →
          (getApi s n).1.axios = s.axiosInstance ∧
          (getApi s n).2.apiInstances = (n, (getApi s n).1) :: s.apiInstances) ∧
    (∀ (s : ApiState) (n : ApiName) (c : SubClient) (resp : TokenPair),
        lookupApi s.apiInstances n = some c →
          getApi (adoptTokens resp s) n = (c, adoptTokens resp s)) := by
  refine ⟨fun s n c h => ?_, fun s n h => ?_, fun s n c resp h => ?_⟩
  · simp [getApi, h]
  · simp [getApi, h, createApi]
  · have hpres : (adoptTokens resp s).apiInstances = s.apiInstances := rfl
    simp [getApi, hpres, h]

/-- C7, witness for the amended theorem: concrete cache hit, cache miss,
and post-refresh reuse. -/
theorem c7_amended_witness :
    getApi (getApi svcA1 .auth).2 .auth
      = ((getApi svcA1 .auth).1, (getApi svcA1 .auth).2) ∧
    ((getApi svcA1 .event).1.axios = svcA1.axiosInstance ∧
     (getApi svcA1 .event).2.apiInstances
       = (.event, (getApi svcA1 .event).1) :: svcA1.apiInstances) ∧
    getApi (adoptTokens respA2 (getApi svcA1 .auth).2) .auth
      = ((getApi svcA1 .auth).1, adoptTokens respA2 (getApi svcA1 .auth).2) :=
  ⟨c7_amended.1 (getApi svcA1 .auth).2 .auth (getApi svcA1 .auth).1 rfl,
   c7_amended.2.1 svcA1 .event rfl,
   c7_amended.2.2 (getApi svcA1 .auth).2 .auth (getApi svcA1 .auth).1 respA2 rfl⟩

/-!
## Helper lemmas for the single-flight theorem
-/

theorem eligibleAt_some {reqs : List PReq} {i : Nat} (h : eligibleAt reqs i = true) :
    ∃ r, reqs[i]? = some r ∧ eligibleError r = true := by
  unfold eligibleAt at h
  cases hg : reqs[i]? with
  | none => rw [hg] at h; cases h
  | some r => rw [hg] at h; exact ⟨r, rfl, h⟩

theorem eligibleAt_lt {reqs : List PReq} {i : Nat} (h : eligibleAt reqs i = true) :
    i < reqs.length := by
  obtain ⟨r, hg, _⟩ := eligibleAt_some h
  exact (List.getElem?_eq_some.mp hg).1

theorem getApi_snd_isRefreshing (s : ApiState) (n : ApiName) :
    (getApi s n).2.isRefreshing = s.isRefreshing := by
  unfold getApi
  cases lookupApi s.apiInstances n <;> rfl

theorem markRetried_length (l : List Nat) :
    ∀ reqs : List PReq, (markRetried reqs l).length = reqs.length := by
  induction l with
  | nil => intro reqs; rfl
  | cons q rest ih =>
      intro reqs
      unfold markRetried
      cases hg : reqs[q]? with
      | none => simpa using ih reqs
      | some r => simpa using ih (reqs.set q { r with retryFlag := true })

theorem markRetried_getElem_notin (l : List Nat) :
    ∀ (reqs : List PReq) (i : Nat), i ∉ l → (markRetried reqs l)[i]? = reqs[i]? := by
  induction l with
  | nil => intro reqs i _; rfl
  | cons q rest ih =>
      intro reqs i hi
      have hiq : i ≠ q := fun h => hi (h ▸ List.mem_cons_self q rest)
      have hirest : i ∉ rest := fun h => hi (List.mem_cons_of_mem q h)
      unfold markRetried
      cases hg : reqs[q]? with
      | none => simpa using ih reqs i hirest
      | some r =>
          simp only []
          rw [ih (reqs.set q { r with retryFlag := true }) i hirest,
            List.getElem?_set_ne (fun h => hiq h.symm)]

theorem arrivals_enqueue (rest : List Nat) :
    ∀ s : ProtoState,
      s.svc.isRefreshing = true →
      rest.Nodup →
      (∀ i ∈ rest, eligibleAt s.reqs i = true) →
      protoRun s (rest.map PEvent.arrive) =
        { s with reqs := markRetried s.reqs rest, queue := s.queue ++ rest } := by
  induction rest with
  | nil => intro s _ _ _; simp [protoRun, markRetried]
  | cons q rest ih =>
      intro s href hnd hel
      obtain ⟨r, hg, he⟩ := eligibleAt_some (hel q (List.mem_cons_self q rest))
      have hstep : arriveStep s q =
          { s with reqs := s.reqs.set q { r with retryFlag := true }
                   queue := s.queue ++ [q] } := by
        simp [arriveStep, hg, he, href]
      have hrun : protoRun s ((q :: rest).map PEvent.arrive)
          = protoRun (arriveStep s q) (rest.map PEvent.arrive) := rfl
      rw [hrun, hstep]
      rw [ih { s with reqs := s.reqs.set q { r with retryFlag := true }
                      queue := s.queue ++ [q] }
            href (List.nodup_cons.mp hnd).2 ?_]
      · have hq : markRetried s.reqs (q :: rest)
            = markRetried (s.reqs.set q { r with retryFlag := true }) rest := by
          rw [markRetried, hg]
        rw [hq, List.append_assoc, List.singleton_append]
      · intro i hi
        have hiq : q ≠ i := fun h => (List.nodup_cons.mp hnd).1 (h ▸ hi)
        show eligibleAt (s.reqs.set q { r with retryFlag := true }) i = true
        unfold eligibleAt
        rw [List.getElem?_set_ne hiq]
        exact hel i (List.mem_cons_of_mem q hi)

theorem pqOk_lengths (tok : String) (l : List Nat) :
    ∀ st : List PReq × List ReqOutcome,
      (processQueueOk tok l st).1.length = st.1.length ∧
      (processQueueOk tok l st).2.length = st.2.length := by
  induction l with
  | nil => intro st; exact ⟨rfl, rfl⟩
  | cons q rest ih =>
      intro st
      unfold processQueueOk
      cases hg : st.1[q]? with
      | none =>
          obtain ⟨h1, h2⟩ := ih (st.1, st.2.set q (.replayed tok))
          simp only [hg]
          exact ⟨h1, by simpa using h2⟩
      | some rq =>
          obtain ⟨h1, h2⟩ :=
            ih (st.1.set q { rq with authHeader := some ("Bearer " ++ tok) },
                st.2.set q (.replayed tok))
          simp only [hg]
          exact ⟨by simpa using h1, by simpa using h2⟩

theorem pqOk_outcomes_get (tok : String) (l : List Nat) :
    ∀ (st : List PReq × List ReqOutcome) (i : Nat),
      i < st.2.length →
      (st.2[i]? = some (.replayed tok) ∨ i ∈ l) →
      (processQueueOk tok l st).2[i]? = some (.replayed tok) := by
  induction l with
  | nil =>
      intro st i _ h
      cases h with
      | inl h => exact h
      | inr h => cases h
  | cons q rest ih =>
      intro st i hlen h
      unfold processQueueOk
      cases hg : st.1[q]? with
      | none =>
          apply ih (st.1, st.2.set q (.replayed tok)) i (by simpa using hlen)
          rcases h with h | h
          · by_cases hiq : i = q
            · subst hiq
              exact Or.inl (List.getElem?_set_eq_of_lt _ hlen)
            · exact Or.inl ((List.getElem?_set_ne (fun hh => hiq hh.symm)).trans h)
          · rcases List.mem_cons.mp h with h | h
            · subst h
              exact Or.inl (List.getElem?_set_eq_of_lt _ hlen)
            · exact Or.inr h
      | some rq =>
          apply ih (st.1.set q { rq with authHeader := some ("Bearer " ++ tok) },
            st.2.set q (.replayed tok)) i (by simpa using hlen)
          rcases h with h | h
          · by_cases hiq : i = q
            · subst hiq
              exact Or.inl (List.getElem?_set_eq_of_lt _ hlen)
            · exact Or.inl ((List.getElem?_set_ne (fun hh => hiq hh.symm)).trans h)
          · rcases List.mem_cons.mp h with h | h
            · subst h
              exact Or.inl (List.getElem?_set_eq_of_lt _ hlen)
            · exact Or.inr h

theorem pqOk_reqs_auth (tok : String) (l : List Nat) :
    ∀ (st : List PReq × List ReqOutcome) (i : Nat),
      ((∃ r, st.1[i]? = some r ∧ r.authHeader = some ("Bearer " ++ tok)) ∨
        (i ∈ l ∧ i < st.1.length)) →
      ∃ r, (processQueueOk tok l st).1[i]? = some r ∧
        r.authHeader = some ("Bearer " ++ tok) := by
  induction l with
  | nil =>
      intro st i h
      rcases h with h | ⟨h, _⟩
      · exact h
      · cases h
  | cons q rest ih =>
      intro st i h
      unfold processQueueOk
      cases hg : st.1[q]? with
      | none =>
          apply ih (st.1, st.2.set q (.replayed tok)) i
          rcases h with h | ⟨hmem, hlen⟩
          · exact Or.inl h
          · rcases List.mem_cons.mp hmem with hq | hmem
            · subst hq
              rw [List.getElem?_eq_getElem hlen] at hg
              cases hg
            · exact Or.inr ⟨hmem, hlen⟩
      | some rq =>
          apply ih (st.1.set q { rq with authHeader := some ("Bearer " ++ tok) },
            st.2.set q (.replayed tok)) i
          have hql : q < st.1.length := (List.getElem?_eq_some.mp hg).1
          rcases h with ⟨r, hr, ha⟩ | ⟨hmem, hlen⟩
          · by_cases hiq : i = q
            · subst hiq
              refine Or.inl ⟨{ rq with authHeader := some ("Bearer " ++ tok) }, ?_, rfl⟩
              exact List.getElem?_set_eq_of_lt _ hql
            · exact Or.inl ⟨r, (List.getElem?_set_ne (fun hh => hiq hh.symm)).trans hr, ha⟩
          · by_cases hiq : i = q
            · subst hiq
              refine Or.inl ⟨{ rq with authHeader := some ("Bearer " ++ tok) }, ?_, rfl⟩
              exact List.getElem?_set_eq_of_lt _ hql
            · rcases List.mem_cons.mp hmem with hq | hmem
              · exact absurd hq hiq
              · exact Or.inr ⟨hmem, by simpa using hlen⟩

/-- C1: for every interleaving of concurrent requests that each receive an
eligible 401 while the single refresh of the expiry window is at most in
flight (any arrival order, starting idle): exactly one call reaches the
refresh endpoint — every later request observes the in-flight refresh and
is pushed onto the pending queue in arrival order instead of starting a
second refresh — and once the single refresh returns, every request
(starter and queued alike) is resolved with, and replayed carrying,
`Authorization: Bearer t` for the one access token `t` that the refresh
returned. -/
theorem c1_single_flight (svc : ApiState) (reqs : List PReq) (order : List Nat)
    (resp : TokenPair)
    (hidle : svc.isRefreshing = false)
    (hrt : jsTruthy svc.refreshToken = true)
    (hne : order ≠ [])
    (hnd : order.Nodup)
    (hval : ∀ i ∈ order, eligibleAt reqs i = true) :
    ((protoRun (initProto svc reqs) (order.map PEvent.arrive)).endpointCalls = 1 ∧
     (protoRun (initProto svc reqs) (order.map PEvent.arrive)).svc.isRefreshing = true ∧
     (protoRun (initProto svc reqs) (order.map PEvent.arrive)).queue = order.tail) ∧
    ((protoRun (initProto svc reqs)
        (order.map PEvent.arrive ++ [PEvent.refreshResolve (.ok resp)])).endpointCalls = 1 ∧
     (protoRun (initProto svc reqs)
        (order.map PEvent.arrive ++ [PEvent.refreshResolve (.ok resp)])).queue = [] ∧
     (∀ i ∈ order,
        (protoRun (initProto svc reqs)
          (order.map PEvent.arrive ++ [PEvent.refreshResolve (.ok resp)])).outcomes[i]?
          = some (.replayed (jsOr resp.accessToken ""))) ∧
     (∀ i ∈ order, ∃ r,
        (protoRun (initProto svc reqs)
          (order.map PEvent.arrive ++ [PEvent.refreshResolve (.ok resp)])).reqs[i]?
          = some r ∧ r.authHeader = some ("Bearer " ++ jsOr resp.accessToken ""))) := by
  cases order with
  | nil => exact absurd rfl hne
  | cons j rest =>
    obtain ⟨rj, hgj, hej⟩ := eligibleAt_some (hval j (List.mem_cons_self j rest))
    have hjlen : j < reqs.length := (List.getElem?_eq_some.mp hgj).1
    have hndr := List.nodup_cons.mp hnd
    have hstep1 : arriveStep (initProto svc reqs) j =
        { initProto svc reqs with
            reqs := reqs.set j { rj with retryFlag := true }
            svc := (getApi { svc with isRefreshing := true } .auth).2
            starter := some j
            refreshPending := true
            endpointCalls := 1 } := by
      simp [arriveStep, initProto, hgj, hej, hidle, hrt]
    have pre1 : ((getApi { svc with isRefreshing := true } .auth).2).isRefreshing = true := by
      rw [getApi_snd_isRefreshing]
    have helrest : ∀ i ∈ rest,
        eligibleAt (reqs.set j { rj with retryFlag := true }) i = true := by
      intro i hi
      have hij : j ≠ i := fun h => hndr.1 (h ▸ hi)
      unfold eligibleAt
      rw [List.getElem?_set_ne hij]
      exact hval i (List.mem_cons_of_mem j hi)
    have hAr : protoRun (initProto svc reqs) ((j :: rest).map PEvent.arrive)
        = { initProto svc reqs with
              reqs := markRetried (reqs.set j { rj with retryFlag := true }) rest
              svc := (getApi { svc with isRefreshing := true } .auth).2
              starter := some j
              refreshPending := true
              endpointCalls := 1
              queue := rest } := by
      have h0 : protoRun (initProto svc reqs) ((j :: rest).map PEvent.arrive)
          = protoRun (arriveStep (initProto svc reqs) j) (rest.map PEvent.arrive) := rfl
      rw [h0, hstep1,
        arrivals_enqueue rest _ pre1 hndr.2 helrest]
      rfl
    have hlenA : (markRetried (reqs.set j { rj with retryFlag := true }) rest).length
        = reqs.length := by
      rw [markRetried_length, List.length_set]
    have hsAreqsj : (markRetried (reqs.set j { rj with retryFlag := true }) rest)[j]?
        = some { rj with retryFlag := true } := by
      rw [markRetried_getElem_notin rest _ j hndr.1,
        List.getElem?_set_eq_of_lt _ hjlen]
    have hfold : protoRun (initProto svc reqs)
          ((j :: rest).map PEvent.arrive ++ [PEvent.refreshResolve (.ok resp)])
        = refreshResolveStep
            (protoRun (initProto svc reqs) ((j :: rest).map PEvent.arrive)) (.ok resp) := by
      unfold protoRun
      rw [List.foldl_append]
      rfl
    refine ⟨⟨?_, ?_, ?_⟩, ?_, ?_, ?_, ?_⟩
    · rw [hAr]
    · rw [hAr]; exact pre1
    · rw [hAr]; rfl
    · rw [hfold, hAr]
      simp [refreshResolveStep, hsAreqsj]
    · rw [hfold, hAr]
      simp [refreshResolveStep, hsAreqsj]
    · intro i hi
      rw [hfold, hAr]
      simp only [refreshResolveStep, hsAreqsj, Bool.not_true, Bool.false_eq_true,
        if_false, ite_false]
      have hdlen : (processQueueOk (jsOr resp.accessToken "") rest
            ((markRetried (reqs.set j { rj with retryFlag := true }) rest).set j
               { rj with retryFlag := true
                         authHeader := some ("Bearer " ++ jsOr resp.accessToken "") },
             (initProto svc reqs).outcomes)).2.length = reqs.length := by
        rw [(pqOk_lengths _ _ _).2]
        simp [initProto]
      rcases List.mem_cons.mp hi with hij | hir
      · subst hij
        rw [List.getElem?_set_eq_of_lt _ (by rw [hdlen]; exact hjlen)]
      · have hij : i ≠ j := fun h => hndr.1 (h ▸ hir)
        rw [List.getElem?_set_ne (fun h => hij h.symm)]
        apply pqOk_outcomes_get
        · simp [initProto]
          exact eligibleAt_lt (hval i (List.mem_cons_of_mem j hir))
        · exact Or.inr hir
    · intro i hi
      rw [hfold, hAr]
      simp only [refreshResolveStep, hsAreqsj, Bool.not_true, Bool.false_eq_true,
        if_false, ite_false]
      rcases List.mem_cons.mp hi with hij | hir
      · subst hij
        apply pqOk_reqs_auth
        refine Or.inl ⟨{ rj with retryFlag := true
                                 authHeader := some ("Bearer " ++ jsOr resp.accessToken "") },
          ?_, rfl⟩
        exact List.getElem?_set_eq_of_lt _ (by rw [hlenA]; exact hjlen)
      · apply pqOk_reqs_auth
        refine Or.inr ⟨hir, ?_⟩
        have := eligibleAt_lt (hval i (List.mem_cons_of_mem j hir))
        simpa [hlenA] using this

/-- C1, witness: three concurrent eligible 401s arriving in order 0,1,2
with the refresh endpoint answering `{accessToken: "A2", refreshToken: "R2"}`. -/
theorem c1_single_flight_witness :
    ((protoRun (initProto svcA1 reqsTriple)
        ([0, 1, 2].map PEvent.arrive)).endpointCalls = 1 ∧
     (protoRun (initProto svcA1 reqsTriple)
        ([0, 1, 2].map PEvent.arrive)).svc.isRefreshing = true ∧
     (protoRun (initProto svcA1 reqsTriple)
        ([0, 1, 2].map PEvent.arrive)).queue = [0, 1, 2].tail) ∧
    ((protoRun (initProto svcA1 reqsTriple)
        ([0, 1, 2].map PEvent.arrive ++ [PEvent.refreshResolve (.ok respA2)])).endpointCalls
       = 1 ∧
     (protoRun (initProto svcA1 reqsTriple)
        ([0, 1, 2].map PEvent.arrive ++ [PEvent.refreshResolve (.ok respA2)])).queue = [] ∧
     (∀ i ∈ [0, 1, 2],
        (protoRun (initProto svcA1 reqsTriple)
          ([0, 1, 2].map PEvent.arrive ++ [PEvent.refreshResolve (.ok respA2)])).outcomes[i]?
          = some (.replayed (jsOr respA2.accessToken ""))) ∧
     (∀ i ∈ [0, 1, 2], ∃ r,
        (protoRun (initProto svcA1 reqsTriple)
          ([0, 1, 2].map PEvent.arrive ++ [PEvent.refreshResolve (.ok respA2)])).reqs[i]?
          = some r ∧ r.authHeader = some ("Bearer " ++ jsOr respA2.accessToken ""))) :=
  c1_single_flight svcA1 reqsTriple [0, 1, 2] respA2 rfl (by decide) (by decide)
    (by decide) (by decide)

end Towncryer
